import Mathlib

/-!
Verification development for the snesUniversal Arduino sketch
(src/snesUniversal/snesUniversal.ino).  The sketch loads key-mapping
profiles from two SD-card text files (loadMappings / convertSpecialKeys),
dispatches each controller button either to a USB gamepad sink or to a
keyboard sink (setButton, called from loop), and cycles the active
profile with two pushbuttons followed by a busy-wait that blocks until
both are released (end of loop).

Shallow embedding conventions: bytes are Nat values below 256; the
16-bit unsigned arithmetic of the AVR target is made explicit with
% 65536; a C read() that can return -1 is modelled on Int; out-of-bounds
array access (undefined behaviour in C) is modelled by Option-valued
lookup, so a dispatch that would read past an array yields none.
-/

namespace SnesUniversal

/-- Number of SNES buttons: the constant SNES_NUM_BUTTONS provided by the
SNES controller library (12, per the draft sketch and the 12-button
gamepad declaration). -/
def SNES_NUM_BUTTONS : Nat := 12

/-- LCD_COLS from the sketch: width of one display row, and the number of
bytes read per line of the name file. -/
def LCD_COLS : Nat := 16

/-- Arduino Keyboard library constant KEY_LEFT_CTRL (0x80). -/
def KEY_LEFT_CTRL : Nat := 128

/-- Arduino Keyboard library constant KEY_LEFT_SHIFT (0x81). -/
def KEY_LEFT_SHIFT : Nat := 129

/-- Arduino Keyboard library constant KEY_LEFT_ALT (0x82). -/
def KEY_LEFT_ALT : Nat := 130

/-- Arduino Keyboard library constant KEY_RETURN (0xB0). -/
def KEY_RETURN : Nat := 176

/-- Arduino Keyboard library constant KEY_ESC (0xB1). -/
def KEY_ESC : Nat := 177

/-- Arduino Keyboard library constant KEY_BACKSPACE (0xB2). -/
def KEY_BACKSPACE : Nat := 178

/-- Arduino Keyboard library constant KEY_TAB (0xB3). -/
def KEY_TAB : Nat := 179

/-- Arduino Keyboard library constant KEY_RIGHT_ARROW (0xD7). -/
def KEY_RIGHT_ARROW : Nat := 215

/-- Arduino Keyboard library constant KEY_LEFT_ARROW (0xD8). -/
def KEY_LEFT_ARROW : Nat := 216

/-- Arduino Keyboard library constant KEY_DOWN_ARROW (0xD9). -/
def KEY_DOWN_ARROW : Nat := 217

/-- Arduino Keyboard library constant KEY_UP_ARROW (0xDA). -/
def KEY_UP_ARROW : Nat := 218

/-- Arduino Keyboard library constant KEY_F1 (0xC2). -/
def KEY_F1 : Nat := 194

/-- Arduino Keyboard library constant KEY_F2 (0xC3). -/
def KEY_F2 : Nat := 195

/-- Arduino Keyboard library constant KEY_F3 (0xC4). -/
def KEY_F3 : Nat := 196

/-- Arduino Keyboard library constant KEY_F4 (0xC5). -/
def KEY_F4 : Nat := 197

/-- Arduino Keyboard library constant KEY_F5 (0xC6). -/
def KEY_F5 : Nat := 198

/-- Arduino Keyboard library constant KEY_F6 (0xC7). -/
def KEY_F6 : Nat := 199

/-- Arduino Keyboard library constant KEY_F7 (0xC8). -/
def KEY_F7 : Nat := 200

/-- Arduino Keyboard library constant KEY_F8 (0xC9). -/
def KEY_F8 : Nat := 201

/-- Arduino Keyboard library constant KEY_F9 (0xCA). -/
def KEY_F9 : Nat := 202

/-- Arduino Keyboard library constant KEY_F10 (0xCB). -/
def KEY_F10 : Nat := 203

/-- Arduino Keyboard library constant KEY_F11 (0xCC). -/
def KEY_F11 : Nat := 204

/-- Arduino Keyboard library constant KEY_F12 (0xCD). -/
def KEY_F12 : Nat := 205

/-- One case of the giant switch in convertSpecialKeys: translate a single
raw config byte into the key code actually stored in the mapping row.
The case order and constants follow the source switch exactly; any byte
not in the reserved table falls through unchanged. -/
def convertSpecialKey (c : Nat) : Nat :=
  if c = 65 then KEY_LEFT_ALT
  else if c = 66 then KEY_BACKSPACE
  else if c = 67 then KEY_LEFT_CTRL
  else if c = 78 then KEY_RETURN
  else if c = 69 then KEY_ESC
  else if c = 83 then KEY_LEFT_SHIFT
  else if c = 84 then KEY_TAB
  else if c = 85 then KEY_UP_ARROW
  else if c = 68 then KEY_DOWN_ARROW
  else if c = 76 then KEY_LEFT_ARROW
  else if c = 82 then KEY_RIGHT_ARROW
  else if c = 33 then KEY_F1
  else if c = 64 then KEY_F2
  else if c = 35 then KEY_F3
  else if c = 36 then KEY_F4
  else if c = 37 then KEY_F5
  else if c = 94 then KEY_F6
  else if c = 38 then KEY_F7
  else if c = 42 then KEY_F8
  else if c = 40 then KEY_F9
  else if c = 41 then KEY_F10
  else if c = 95 then KEY_F11
  else if c = 43 then KEY_F12
  else c

/-- convertSpecialKeys from the sketch: applies the switch to every entry
of one mapping row (the source loops i over 0..SNES_NUM_BUTTONS-1 of a
row of exactly that length). -/
def convertSpecialKeys (row : List Nat) : List Nat :=
  row.map convertSpecialKey

/-- The reserved bytes of the special-key table, in source switch order:
A B C N E S T U D L R then the twelve function-key characters. -/
def reservedBytes : List Nat :=
  [65, 66, 67, 78, 69, 83, 84, 85, 68, 76, 82,
   33, 64, 35, 36, 37, 94, 38, 42, 40, 41, 95, 43]

/-- The key codes the reserved bytes translate to, aligned with
reservedBytes. -/
def specialKeyCodes : List Nat :=
  [KEY_LEFT_ALT, KEY_BACKSPACE, KEY_LEFT_CTRL, KEY_RETURN, KEY_ESC,
   KEY_LEFT_SHIFT, KEY_TAB, KEY_UP_ARROW, KEY_DOWN_ARROW, KEY_LEFT_ARROW,
   KEY_RIGHT_ARROW, KEY_F1, KEY_F2, KEY_F3, KEY_F4, KEY_F5, KEY_F6,
   KEY_F7, KEY_F8, KEY_F9, KEY_F10, KEY_F11, KEY_F12]

/-- File.read() of one byte as the sketch uses it: the next byte of the
stream, or -1 when nothing can be read (absent file or end of stream). -/
def readByteC : List Nat → Int × List Nat
  | [] => (-1, [])
  | b :: rest => ((b : Int), rest)

/-- The loop body of loadMappings: for each of n configurations, read
SNES_NUM_BUTTONS bytes from the config stream into a mapping row, read
LCD_COLS bytes from the name stream, run convertSpecialKeys on the row,
then skip the 2-byte line ending in both streams (skipLineEnding). -/
def loadLoop : Nat → List Nat → List Nat → List (List Nat) × List (List Nat)
  | 0, _, _ => ([], [])
  | Nat.succ n, cfg, nm =>
    let row := convertSpecialKeys (cfg.take SNES_NUM_BUTTONS)
    let nameRow := nm.take LCD_COLS
    let rest := loadLoop n ((cfg.drop SNES_NUM_BUTTONS).drop 2) ((nm.drop LCD_COLS).drop 2)
    (row :: rest.1, nameRow :: rest.2)

/-- The literal string "USB Gamepad" stored into names[configCount]. -/
def USB_GAMEPAD_NAME : List Nat := [85, 83, 66, 32, 71, 97, 109, 101, 112, 97, 100]

/-- The global state produced by loadMappings: configCount, the mappings
array (one row per text-defined configuration) and the names array
(one extra entry for the USB-gamepad slot). -/
structure LoadResult where
  configCount : Nat
  mappings : List (List Nat)
  names : List (List Nat)
deriving DecidableEq

/-- loadMappings from the sketch: configCount is the first config byte
minus '0' (unsigned 16-bit arithmetic, no validation), then after
skipping the line ending the loop fills mappings and names, and finally
names[configCount] is set to "USB Gamepad". -/
def loadMappings (configStream nameStream : List Nat) : LoadResult :=
  let r := readByteC configStream
  let configCount := ((r.1 - 48) % 65536).toNat
  let rows := loadLoop configCount (r.2.drop 2) nameStream
  ⟨configCount, rows.1, rows.2 ++ [USB_GAMEPAD_NAME]⟩

/-- Size of the profile table in the spec sense: the text-defined
configurations plus the implicit native-gamepad slot (the names array
has exactly this many entries). -/
def tableSize (r : LoadResult) : Nat := r.configCount + 1

/-- One call to an output sink: gamepad.setButton, Keyboard.press or
Keyboard.release. -/
inductive SinkCall where
  | gp (btn : Nat) (state : Bool)
  | kbPress (code : Nat)
  | kbRelease (code : Nat)
deriving DecidableEq

/-- Whether a sink call is a gamepad call. -/
def SinkCall.isGamepad : SinkCall → Bool
  | SinkCall.gp _ _ => true
  | _ => false

/-- The C expression inputs & (1 << i) converted to bool: bit i of the
controller bitmask. -/
def bitOf (inputs i : Nat) : Bool :=
  Nat.land inputs (Nat.shiftLeft 1 i) != 0

/-- setButton from the sketch, as the list of sink calls it performs.
If mapIndex equals configCount it calls the gamepad sink; otherwise it
reads currentMap[btn] = mappings[mapIndex][btn] and, unless that code is
the tilde sentinel (126), presses or releases it on the keyboard.
An out-of-bounds array read is modelled as none. -/
def setButtonCallsO (mapIndex configCount : Nat) (m : List (List Nat))
    (btn : Nat) (state : Bool) : Option (List SinkCall) :=
  if mapIndex = configCount then some [SinkCall.gp btn state]
  else
    (m[mapIndex]?).bind fun row =>
      (row[btn]?).map fun code =>
        if code = 126 then []
        else if state then [SinkCall.kbPress code] else [SinkCall.kbRelease code]

/-- The dispatch for-loop of loop(): setButton(i, inputs & (1 << i)) for
each button index in the given list, concatenating the sink calls in
order. -/
def dispatchLoop (mapIndex configCount : Nat) (m : List (List Nat))
    (inputs : Nat) : List Nat → Option (List SinkCall)
  | [] => some []
  | b :: rest =>
    (setButtonCallsO mapIndex configCount m b (bitOf inputs b)).bind fun one =>
      (dispatchLoop mapIndex configCount m inputs rest).map fun more => one ++ more

/-- One full dispatch pass of loop(): buttons 0 .. SNES_NUM_BUTTONS-1. -/
def dispatchCallsO (mapIndex configCount : Nat) (m : List (List Nat))
    (inputs : Nat) : Option (List SinkCall) :=
  dispatchLoop mapIndex configCount m inputs (List.range SNES_NUM_BUTTONS)

/-- The profile-selection logic at the end of loop(), on 16-bit unsigned
mapIndex: if the up button reads pressed, pre-increment and wrap to 0 on
reaching configCount + 1; otherwise if the down button reads pressed,
post-decrement and on underflow from 0 assign configCount. -/
def selectStep (configCount mapIndex : Nat) (up down : Bool) : Nat :=
  if up then
    if (mapIndex + 1) % 65536 = (configCount + 1) % 65536 then 0
    else (mapIndex + 1) % 65536
  else if down then
    if mapIndex = 0 then configCount else (mapIndex + 65535) % 65536
  else mapIndex

/-- The up-button transition of the selector. -/
def advance (configCount mapIndex : Nat) : Nat :=
  selectStep configCount mapIndex true false

/-- The down-button transition of the selector. -/
def retreat (configCount mapIndex : Nat) : Nat :=
  selectStep configCount mapIndex false true

/-- The mutable global state of the sketch after setup(): mapIndex plus
the tables built by loadMappings. -/
structure SysState where
  mapIndex : Nat
  configCount : Nat
  mappings : List (List Nat)
  names : List (List Nat)
deriving DecidableEq

/-- One iteration of loop() as a state transformer: the dispatch pass is
computed from the pre-state, then the selector may update mapIndex from
the two pushbutton readings; the tables are never written. -/
def stateStep (s : SysState) (inputs : Nat) (up down : Bool) :
    SysState × Option (List SinkCall) :=
  (⟨selectStep s.configCount s.mapIndex up down, s.configCount, s.mappings, s.names⟩,
   dispatchCallsO s.mapIndex s.configCount s.mappings inputs)

/-- Iterated loop() over a trace of per-iteration inputs. -/
def run : SysState → List (Nat × Bool × Bool) → SysState
  | s, [] => s
  | s, (inputs, up, down) :: rest => run (stateStep s inputs up down).1 rest

/-- The state right after setup(): mapIndex is the global initial value 0
and the tables are whatever loadMappings produced. -/
def initialState (configStream nameStream : List Nat) : SysState :=
  let r := loadMappings configStream nameStream
  ⟨0, r.configCount, r.mappings, r.names⟩

/-- The busy-wait at the end of loop(): keep reading the two select
buttons until one reading shows both released, returning the rest of the
reading stream (none if the stream is exhausted while still held, i.e.
the wait never terminates). -/
def waitRelease : List (Bool × Bool) → Option (List (Bool × Bool))
  | [] => none
  | (u, d) :: rest => if u || d then waitRelease rest else some rest

/-- One iteration of loop() consuming a stream of select-button readings:
the head reading is the poll that may trigger a selector transition, and
the busy-wait then consumes readings until both buttons read released.
Returns the post-state, the readings left for the next iteration, and
the dispatch calls of this iteration. -/
def loopIter (s : SysState) (inputs : Nat) (reads : List (Bool × Bool)) :
    Option (SysState × List (Bool × Bool) × Option (List SinkCall)) :=
  match reads with
  | [] => none
  | (u, d) :: rest =>
    match waitRelease rest with
    | none => none
    | some rest2 => some ((stateStep s inputs u d).1, rest2, (stateStep s inputs u d).2)

/-- Scenario A config stream: "2\r\n~~~~~~~~~~~~\r\nABCDEFGHIJKL\r\n". -/
def scenarioACfg : List Nat :=
  [50, 13, 10,
   126, 126, 126, 126, 126, 126, 126, 126, 126, 126, 126, 126, 13, 10,
   65, 66, 67, 68, 69, 70, 71, 72, 73, 74, 75, 76, 13, 10]

/-- A matching name stream for scenario A: forty blanks, enough for two
16-byte names plus line endings. -/
def scenarioANm : List Nat := List.replicate 40 32

/-- One config line of the malformed-count scenario: twelve letter-a
codes plus a CRLF line ending. -/
def c6Line : List Nat := List.replicate 12 97 ++ [13, 10]

/-- A config stream whose first byte is the colon character 58, which is
not an ASCII digit, followed by ten complete config lines. -/
def c6Cfg : List Nat :=
  58 :: 13 :: 10 ::
    (c6Line ++ c6Line ++ c6Line ++ c6Line ++ c6Line ++
     c6Line ++ c6Line ++ c6Line ++ c6Line ++ c6Line)

/-- A long blank name stream for the malformed-count scenario. -/
def c6Nm : List Nat := List.replicate 200 32

/-- A small concrete system state used by witness theorems: no text
profiles loaded, so mapIndex 0 is the native-gamepad slot. -/
def s9 : SysState := ⟨0, 0, [], [USB_GAMEPAD_NAME]⟩

/-- A concrete one-profile mapping table used by witness theorems:
button 0 unmapped, button 1 the literal letter A, the rest unmapped. -/
def w3Row : List Nat := [126, 65, 126, 126, 126, 126, 126, 126, 126, 126, 126, 126]

/-- The one-row table holding w3Row. -/
def w3M : List (List Nat) := [w3Row]

set_option maxRecDepth 8192 in
/-- C2: the special-key codec is total over the byte range: every byte in
the reserved table translates to its designated key constant (reading
the table off the switch), the letter U in particular becomes the
up-arrow key code and not the literal letter, the tilde byte 126 passes
through unchanged as the unmapped sentinel, no special key code collides
with the sentinel, and every byte outside the reserved table is returned
unchanged as a literal key. -/
theorem c2_keycodec_total (b : Nat) (hb : b < 256) :
    convertSpecialKey b < 256 ∧
    reservedBytes.map convertSpecialKey = specialKeyCodes ∧
    convertSpecialKey 85 = KEY_UP_ARROW ∧
    KEY_UP_ARROW ≠ 85 ∧
    convertSpecialKey 126 = 126 ∧
    126 ∉ specialKeyCodes ∧
    (b ∉ reservedBytes → convertSpecialKey b = b) := by
  refine ⟨?_, by decide, by decide, by decide, by decide, by decide, ?_⟩
  · have h2 : ∀ x : Fin 256, convertSpecialKey x.val < 256 := by decide
    exact h2 ⟨b, hb⟩
  · have h3 : ∀ x : Fin 256, x.val ∉ reservedBytes → convertSpecialKey x.val = x.val := by
      decide
    exact h3 ⟨b, hb⟩

/-- Witness for c2_keycodec_total at the concrete byte 97. -/
theorem c2_keycodec_total_witness :
    (97 : Nat) < 256 ∧
    (convertSpecialKey 97 < 256 ∧
     reservedBytes.map convertSpecialKey = specialKeyCodes ∧
     convertSpecialKey 85 = KEY_UP_ARROW ∧
     KEY_UP_ARROW ≠ 85 ∧
     convertSpecialKey 126 = 126 ∧
     126 ∉ specialKeyCodes ∧
     (97 ∉ reservedBytes → convertSpecialKey 97 = 97)) :=
  ⟨by decide, c2_keycodec_total 97 (by decide)⟩

/-- C1 counterexample: in scenario A the second profile line
"ABCDEFGHIJKL" does not produce the literal letters as the claim states;
convertSpecialKeys rewrites A to KEY_LEFT_ALT (and B, C, D, E, L to the
corresponding special key codes), and the subsequent dispatch of bitmask
1 under profile 1 never calls Keyboard.press with the literal letter A
(byte 65). -/
theorem c1_counterexample :
    (loadMappings scenarioACfg scenarioANm).mappings[1]? ≠
      some [65, 66, 67, 68, 69, 70, 71, 72, 73, 74, 75, 76] ∧
    ((loadMappings scenarioACfg scenarioANm).mappings[1]?.getD [])[0]?.getD 0 = KEY_LEFT_ALT ∧
    KEY_LEFT_ALT ≠ 65 ∧
    dispatchCallsO 1 2 (loadMappings scenarioACfg scenarioANm).mappings 1 ≠ none ∧
    SinkCall.kbPress 65 ∉
      (dispatchCallsO 1 2 (loadMappings scenarioACfg scenarioANm).mappings 1).getD [] := by
  refine ⟨by decide, by decide, by decide, by decide, by decide⟩

/-- C1 amended: scenario A yields a table of size 3 whose profile 0 has
all twelve buttons unmapped, but profile 1 carries the codec-translated
codes: button 0 is KEY_LEFT_ALT, button 1 KEY_BACKSPACE, button 2
KEY_LEFT_CTRL, button 3 KEY_DOWN_ARROW, button 4 KEY_ESC, buttons 5-10
the literal letters F through K, and button 11 KEY_LEFT_ARROW; dispatching
bitmask 1 with profile 1 active calls Keyboard.press(KEY_LEFT_ALT) and
the next dispatch with bitmask 0 calls Keyboard.release(KEY_LEFT_ALT). -/
theorem c1_amended_scenario :
    tableSize (loadMappings scenarioACfg scenarioANm) = 3 ∧
    (loadMappings scenarioACfg scenarioANm).names.length = 3 ∧
    (loadMappings scenarioACfg scenarioANm).mappings[0]? = some (List.replicate 12 126) ∧
    (loadMappings scenarioACfg scenarioANm).mappings[1]? =
      some [KEY_LEFT_ALT, KEY_BACKSPACE, KEY_LEFT_CTRL, KEY_DOWN_ARROW, KEY_ESC,
            70, 71, 72, 73, 74, 75, KEY_LEFT_ARROW] ∧
    SinkCall.kbPress KEY_LEFT_ALT ∈
      (dispatchCallsO 1 2 (loadMappings scenarioACfg scenarioANm).mappings 1).getD [] ∧
    SinkCall.kbRelease KEY_LEFT_ALT ∈
      (dispatchCallsO 1 2 (loadMappings scenarioACfg scenarioANm).mappings 0).getD [] := by
  refine ⟨by decide, by decide, by decide, by decide, by decide, by decide⟩

/-- The up transition acts as successor modulo configCount + 1 on indices
inside the table, as long as the count is small enough that the 16-bit
wrap in the source is invisible. -/
theorem advance_mod (cc j : Nat) (hcc : cc ≤ 9) (hj : j < cc + 1) :
    advance cc j = (j + 1) % (cc + 1) := by
  have e0 : advance cc j =
      if (j + 1) % 65536 = (cc + 1) % 65536 then 0 else (j + 1) % 65536 := rfl
  have e1 : (j + 1) % 65536 = j + 1 := Nat.mod_eq_of_lt (by omega)
  have e2 : (cc + 1) % 65536 = cc + 1 := Nat.mod_eq_of_lt (by omega)
  rw [e0, e1, e2]
  by_cases h : j + 1 = cc + 1
  · rw [if_pos h, h, Nat.mod_self]
  · rw [if_neg h, Nat.mod_eq_of_lt (by omega : j + 1 < cc + 1)]

/-- The down transition acts as predecessor modulo configCount + 1, i.e.
addition of configCount, on indices inside the table. -/
theorem retreat_mod (cc j : Nat) (hcc : cc ≤ 9) (hj : j < cc + 1) :
    retreat cc j = (j + cc) % (cc + 1) := by
  have e0 : retreat cc j =
      if j = 0 then cc else (j + 65535) % 65536 := rfl
  rw [e0]
  by_cases h0 : j = 0
  · rw [if_pos h0, h0, Nat.mod_eq_of_lt (by omega)]
    omega
  · rw [if_neg h0]
    have e1 : (j + 65535) % 65536 = j - 1 := by omega
    have e2 : j + cc = (j - 1) + 1 * (cc + 1) := by omega
    rw [e1, e2, Nat.add_mul_mod_self_right, Nat.mod_eq_of_lt (by omega : j - 1 < cc + 1)]

/-- Iterating the up transition n times adds n modulo the table size. -/
theorem advance_iterate (cc : Nat) (hcc : cc ≤ 9) :
    ∀ (n j : Nat), j < cc + 1 → (advance cc)^[n] j = (j + n) % (cc + 1) := by
  intro n
  induction n with
  | zero => intro j hj; simp [Nat.mod_eq_of_lt hj]
  | succ k ih =>
    intro j hj
    rw [Function.iterate_succ_apply, advance_mod cc j hcc hj,
      ih ((j + 1) % (cc + 1)) (Nat.mod_lt _ (by omega)), Nat.mod_add_mod]
    congr 1
    omega

/-- Iterating the down transition n times adds n * configCount modulo the
table size. -/
theorem retreat_iterate (cc : Nat) (hcc : cc ≤ 9) :
    ∀ (n j : Nat), j < cc + 1 → (retreat cc)^[n] j = (j + n * cc) % (cc + 1) := by
  intro n
  induction n with
  | zero => intro j hj; simp [Nat.mod_eq_of_lt hj]
  | succ k ih =>
    intro j hj
    rw [Function.iterate_succ_apply, retreat_mod cc j hcc hj,
      ih ((j + cc) % (cc + 1)) (Nat.mod_lt _ (by omega)), Nat.mod_add_mod]
    congr 1
    ring

/-- C5: the selector computes (index + 1) mod size on up and
(index - 1 + size) mod size on down, where size = configCount + 1;
composing either transition size times is the identity on every index in
the table, and from the last text profile (size - 2) one up press reaches
the native-gamepad slot (size - 1) and a second one wraps to 0. -/
theorem c5_selector_cyclic (cc i : Nat) (h1 : 1 ≤ cc) (h9 : cc ≤ 9) (hi : i < cc + 1) :
    advance cc i = (i + 1) % (cc + 1) ∧
    retreat cc i = (i + cc) % (cc + 1) ∧
    (advance cc)^[cc + 1] i = i ∧
    (retreat cc)^[cc + 1] i = i ∧
    advance cc (cc + 1 - 2) = cc ∧
    advance cc cc = 0 := by
  refine ⟨advance_mod cc i h9 hi, retreat_mod cc i h9 hi, ?_, ?_, ?_, ?_⟩
  · rw [advance_iterate cc h9 (cc + 1) i hi, Nat.add_mod_right, Nat.mod_eq_of_lt hi]
  · rw [retreat_iterate cc h9 (cc + 1) i hi]
    have e : i + (cc + 1) * cc = i + cc * (cc + 1) := by ring
    rw [e, Nat.add_mul_mod_self_right, Nat.mod_eq_of_lt hi]
  · rw [advance_mod cc (cc + 1 - 2) h9 (by omega)]
    have e : cc + 1 - 2 + 1 = cc := by omega
    rw [e, Nat.mod_eq_of_lt (by omega)]
  · rw [advance_mod cc cc h9 (by omega), Nat.mod_self]

/-- Witness for c5_selector_cyclic with two text profiles and index 1. -/
theorem c5_selector_cyclic_witness :
    (1 ≤ 2 ∧ (2 : Nat) ≤ 9 ∧ 1 < 2 + 1) ∧
    (advance 2 1 = (1 + 1) % (2 + 1) ∧
     retreat 2 1 = (1 + 2) % (2 + 1) ∧
     (advance 2)^[2 + 1] 1 = 1 ∧
     (retreat 2)^[2 + 1] 1 = 1 ∧
     advance 2 (2 + 1 - 2) = 2 ∧
     advance 2 2 = 0) :=
  ⟨⟨by decide, by decide, by decide⟩, c5_selector_cyclic 2 1 (by decide) (by decide) (by decide)⟩

/-- C8: the dispatch pass of loop() has no memory: the sink calls it
emits depend only on the bitmask, the active index and the mapping
table, so an iteration that does not move the selector is followed by an
iteration emitting exactly the same calls for the same bitmask. -/
theorem c8_dispatch_idempotent (s s2 : SysState) (inputs : Nat) (u d u2 d2 : Bool)
    (hIdx : s2.mapIndex = s.mapIndex) (hcc : s2.configCount = s.configCount)
    (hm : s2.mappings = s.mappings) :
    (stateStep s2 inputs u2 d2).2 = (stateStep s inputs u d).2 ∧
    (stateStep (stateStep s inputs false false).1 inputs false false).2 =
      (stateStep s inputs false false).2 ∧
    (stateStep s inputs false false).1.mapIndex = s.mapIndex ∧
    (stateStep s inputs false false).1.mappings = s.mappings := by
  refine ⟨?_, rfl, rfl, rfl⟩
  simp [stateStep, hIdx, hcc, hm]

/-- Witness for c8_dispatch_idempotent on the concrete state s9. -/
theorem c8_dispatch_idempotent_witness :
    (s9.mapIndex = s9.mapIndex ∧ s9.configCount = s9.configCount ∧
     s9.mappings = s9.mappings) ∧
    ((stateStep s9 5 true false).2 = (stateStep s9 5 false true).2 ∧
     (stateStep (stateStep s9 5 false false).1 5 false false).2 =
       (stateStep s9 5 false false).2 ∧
     (stateStep s9 5 false false).1.mapIndex = s9.mapIndex ∧
     (stateStep s9 5 false false).1.mappings = s9.mappings) :=
  ⟨⟨rfl, rfl, rfl⟩, c8_dispatch_idempotent s9 s9 5 false true true false rfl rfl rfl⟩

/-- Unfolding loadMappings on a nonempty config stream. -/
theorem loadMappings_cons (b : Nat) (rest nm : List Nat) :
    loadMappings (b :: rest) nm =
      ⟨(((b : Int) - 48) % 65536).toNat,
       (loadLoop ((((b : Int) - 48) % 65536).toNat) (rest.drop 2) nm).1,
       (loadLoop ((((b : Int) - 48) % 65536).toNat) (rest.drop 2) nm).2
         ++ [USB_GAMEPAD_NAME]⟩ := rfl

/-- The load loop produces exactly n mapping rows of SNES_NUM_BUTTONS
codes each and n name rows, as long as the config stream has enough
bytes for every 12-byte read. -/
theorem loadLoop_lengths (n : Nat) :
    ∀ cfg nm : List Nat, 14 * n ≤ cfg.length + 2 →
      (loadLoop n cfg nm).1.length = n ∧
      (∀ row ∈ (loadLoop n cfg nm).1, row.length = SNES_NUM_BUTTONS) ∧
      (loadLoop n cfg nm).2.length = n := by
  induction n with
  | zero =>
    intro cfg nm _
    refine ⟨rfl, ?_, rfl⟩
    intro row h
    cases h
  | succ k ih =>
    intro cfg nm h
    have hcfg : 12 ≤ cfg.length := by omega
    have h2 : 14 * k ≤ ((cfg.drop SNES_NUM_BUTTONS).drop 2).length + 2 := by
      simp only [List.length_drop, SNES_NUM_BUTTONS]
      omega
    obtain ⟨ha, hb, hc⟩ := ih ((cfg.drop SNES_NUM_BUTTONS).drop 2) ((nm.drop LCD_COLS).drop 2) h2
    refine ⟨?_, ?_, ?_⟩
    · simp only [loadLoop, List.length_cons, ha]
    · intro row hrow
      simp only [loadLoop, List.mem_cons] at hrow
      rcases hrow with h1 | h1
      · rw [h1]
        simp only [convertSpecialKeys, List.length_map, List.length_take,
          SNES_NUM_BUTTONS]
        omega
      · exact hb row h1
    · simp only [loadLoop, List.length_cons, hc]

/-- C6 counterexample: the colon byte 58 is not an ASCII digit, yet
loadMappings on the stream c6Cfg does not fail — it silently uses
58 - 48 = 10 as the configuration count and builds a full ten-profile
table, exactly what the claim says never happens. -/
theorem c6_counterexample :
    (¬ (48 ≤ 58 ∧ 58 ≤ 57)) ∧
    (loadMappings c6Cfg c6Nm).configCount = 10 ∧
    (loadMappings c6Cfg c6Nm).mappings.length = 10 ∧
    (loadMappings c6Cfg c6Nm).mappings.map List.length = List.replicate 10 12 ∧
    (loadMappings c6Cfg c6Nm).names.length = 11 := by
  refine ⟨by decide, by decide, by decide, by decide, by decide⟩

/-- C6 amended: loadMappings performs no validation at all: for any first
config byte b it unconditionally uses (b - 48) mod 65536 as the
configuration count and proceeds (a non-digit byte such as the colon
silently yields count 10), and when the stream is absent or empty the
read returns -1, so the count silently becomes 65487; no failure is ever
signalled and setup() always continues into the poll loop. -/
theorem c6_amended_no_validation :
    (∀ (b : Nat) (rest nm : List Nat),
        (loadMappings (b :: rest) nm).configCount = (((b : Int) - 48) % 65536).toNat) ∧
    (∀ nm : List Nat, (loadMappings [] nm).configCount = 65487) ∧
    (loadMappings c6Cfg c6Nm).configCount = 10 := by
  refine ⟨fun b rest nm => rfl, fun nm => rfl, by decide⟩

/-- C4: on a valid code stream declaring k profiles (first byte is the
digit 48 + k, enough bytes for k full lines), loadMappings yields
configCount = k, a table of size k + 1 (the names array carries the
extra native-gamepad slot), exactly k text-defined mapping rows, and
every row has exactly SNES_NUM_BUTTONS codes. -/
theorem c4_load_table_size (k : Nat) (rest nm : List Nat)
    (hk1 : 1 ≤ k) (hk9 : k ≤ 9) (hlen : 2 + 14 * k ≤ rest.length) :
    (loadMappings ((48 + k) :: rest) nm).configCount = k ∧
    tableSize (loadMappings ((48 + k) :: rest) nm) = k + 1 ∧
    (loadMappings ((48 + k) :: rest) nm).names.length = k + 1 ∧
    (loadMappings ((48 + k) :: rest) nm).mappings.length = k ∧
    ∀ row ∈ (loadMappings ((48 + k) :: rest) nm).mappings,
      row.length = SNES_NUM_BUTTONS := by
  have harith : ((((48 + k : Nat) : Int) - 48) % 65536).toNat = k := by omega
  have hlen2 : 14 * k ≤ (rest.drop 2).length + 2 := by
    simp only [List.length_drop]
    omega
  obtain ⟨ha, hb, hc⟩ := loadLoop_lengths k (rest.drop 2) nm hlen2
  rw [loadMappings_cons, harith]
  refine ⟨rfl, ?_, ?_, ha, hb⟩
  · simp only [tableSize]
  · simp only [List.length_append, List.length_cons, List.length_nil, hc]

/-- Witness for c4_load_table_size on the scenario A stream (k = 2). -/
theorem c4_load_table_size_witness :
    (1 ≤ 2 ∧ (2 : Nat) ≤ 9 ∧
     2 + 14 * 2 ≤ (List.drop 1 scenarioACfg).length ∧
     scenarioACfg = (48 + 2) :: List.drop 1 scenarioACfg) ∧
    ((loadMappings ((48 + 2) :: List.drop 1 scenarioACfg) scenarioANm).configCount = 2 ∧
     tableSize (loadMappings ((48 + 2) :: List.drop 1 scenarioACfg) scenarioANm) = 2 + 1 ∧
     (loadMappings ((48 + 2) :: List.drop 1 scenarioACfg) scenarioANm).names.length = 2 + 1 ∧
     (loadMappings ((48 + 2) :: List.drop 1 scenarioACfg) scenarioANm).mappings.length = 2 ∧
     ∀ row ∈ (loadMappings ((48 + 2) :: List.drop 1 scenarioACfg) scenarioANm).mappings,
       row.length = SNES_NUM_BUTTONS) :=
  ⟨⟨by decide, by decide, by decide, by decide⟩,
   c4_load_table_size 2 (List.drop 1 scenarioACfg) scenarioANm
     (by decide) (by decide) (by decide)⟩

/-- When mapIndex equals configCount, setButton takes the gamepad branch
immediately, for every mapping table. -/
theorem setButtonCallsO_native (cc : Nat) (m : List (List Nat)) (btn : Nat) (st : Bool) :
    setButtonCallsO cc cc m btn st = some [SinkCall.gp btn st] := by
  unfold setButtonCallsO
  rw [if_pos rfl]

/-- The dispatch pass on the native-gamepad slot forwards every button of
the list positionally to the gamepad sink, for every mapping table. -/
theorem dispatchLoop_native (cc : Nat) (m : List (List Nat)) (inputs : Nat)
    (L : List Nat) :
    dispatchLoop cc cc m inputs L =
      some (L.map fun i => SinkCall.gp i (bitOf inputs i)) := by
  induction L with
  | nil => rfl
  | cons b t ih =>
    simp only [dispatchLoop, setButtonCallsO_native, ih]
    rfl

/-- On a text profile, setButton looks up the button's code and either
does nothing (tilde sentinel) or presses/releases that code. -/
theorem setButtonCallsO_text (mi cc : Nat) (m : List (List Nat)) (row : List Nat)
    (b : Nat) (st : Bool) (hne : mi ≠ cc) (hrowm : m[mi]? = some row)
    (hb : b < row.length) :
    setButtonCallsO mi cc m b st =
      some (if row[b] = 126 then []
            else if st then [SinkCall.kbPress row[b]] else [SinkCall.kbRelease row[b]]) := by
  unfold setButtonCallsO
  rw [if_neg hne, hrowm, Option.some_bind', List.getElem?_eq_getElem hb]
  rfl

/-- On a text profile, the dispatch pass over in-range buttons succeeds
and emits only keyboard calls. -/
theorem dispatchLoop_text (mi cc : Nat) (m : List (List Nat)) (row : List Nat)
    (inputs : Nat) (hne : mi ≠ cc) (hrowm : m[mi]? = some row)
    (hlen : row.length = SNES_NUM_BUTTONS) :
    ∀ L : List Nat, (∀ b ∈ L, b < SNES_NUM_BUTTONS) →
      ∃ calls, dispatchLoop mi cc m inputs L = some calls ∧
        ∀ c ∈ calls, c.isGamepad = false := by
  intro L
  induction L with
  | nil =>
    intro _
    refine ⟨[], rfl, ?_⟩
    intro c hc
    cases hc
  | cons b t ih =>
    intro hL
    obtain ⟨calls, hcalls, hng⟩ := ih (fun x hx => hL x (List.mem_cons_of_mem b hx))
    have hb : b < row.length := by
      rw [hlen]
      exact hL b (List.mem_cons_self b t)
    refine ⟨(if row[b] = 126 then []
             else if bitOf inputs b then [SinkCall.kbPress row[b]]
             else [SinkCall.kbRelease row[b]]) ++ calls, ?_, ?_⟩
    · simp only [dispatchLoop,
        setButtonCallsO_text mi cc m row b (bitOf inputs b) hne hrowm hb, hcalls]
      rfl
    · intro c hc
      rcases List.mem_append.mp hc with h1 | h1
      · split_ifs at h1 with h2 h3
        · cases h1
        · rw [List.mem_singleton.mp h1]
          rfl
        · rw [List.mem_singleton.mp h1]
          rfl
      · exact hng c h1

/-- C3: routing of dispatch. With the native-gamepad slot active the full
dispatch pass calls exactly gamepad.setButton(i, bit i) for each of the
twelve buttons, positionally, and never the keyboard sink; with a text
profile active it never calls the gamepad sink, and each button either
does nothing (tilde sentinel 126) or presses/releases the looked-up code
according to its bit. -/
theorem c3_dispatch_routing (mi inputs : Nat) (m : List (List Nat)) (row : List Nat)
    (hmi : mi < m.length) (hrowm : m[mi]? = some row)
    (hlen : row.length = SNES_NUM_BUTTONS) :
    (dispatchCallsO m.length m.length m inputs =
       some ((List.range SNES_NUM_BUTTONS).map fun i => SinkCall.gp i (bitOf inputs i))) ∧
    (∀ c ∈ (List.range SNES_NUM_BUTTONS).map fun i => SinkCall.gp i (bitOf inputs i),
       c.isGamepad = true) ∧
    (∃ calls, dispatchCallsO mi m.length m inputs = some calls ∧
       ∀ c ∈ calls, c.isGamepad = false) ∧
    (∀ (b : Nat) (hb : b < SNES_NUM_BUTTONS),
       setButtonCallsO mi m.length m b (bitOf inputs b) =
         some (if row.get ⟨b, by omega⟩ = 126 then []
               else if bitOf inputs b then [SinkCall.kbPress (row.get ⟨b, by omega⟩)]
               else [SinkCall.kbRelease (row.get ⟨b, by omega⟩)])) := by
  have hne : mi ≠ m.length := Nat.ne_of_lt hmi
  refine ⟨dispatchLoop_native m.length m inputs (List.range SNES_NUM_BUTTONS), ?_, ?_, ?_⟩
  · intro c hc
    obtain ⟨i, _, hi⟩ := List.mem_map.mp hc
    rw [← hi]
    rfl
  · exact dispatchLoop_text mi m.length m row inputs hne hrowm hlen
      (List.range SNES_NUM_BUTTONS) (fun b hb => List.mem_range.mp hb)
  · intro b hb
    exact setButtonCallsO_text mi m.length m row b (bitOf inputs b) hne hrowm (by omega)

/-- Witness for c3_dispatch_routing on the one-profile table w3M with
bitmask 2 (button 1 pressed). -/
theorem c3_dispatch_routing_witness :
    (0 < w3M.length ∧ w3M[0]? = some w3Row ∧ w3Row.length = SNES_NUM_BUTTONS) ∧
    ((dispatchCallsO w3M.length w3M.length w3M 2 =
        some ((List.range SNES_NUM_BUTTONS).map fun i => SinkCall.gp i (bitOf 2 i))) ∧
     (∀ c ∈ (List.range SNES_NUM_BUTTONS).map fun i => SinkCall.gp i (bitOf 2 i),
        c.isGamepad = true) ∧
     (∃ calls, dispatchCallsO 0 w3M.length w3M 2 = some calls ∧
        ∀ c ∈ calls, c.isGamepad = false) ∧
     (∀ (b : Nat) (hb : b < SNES_NUM_BUTTONS),
        setButtonCallsO 0 w3M.length w3M b (bitOf 2 b) =
          some (if w3Row.get ⟨b, by simpa [w3Row, SNES_NUM_BUTTONS] using hb⟩ = 126 then []
                else if bitOf 2 b then
                  [SinkCall.kbPress (w3Row.get ⟨b, by simpa [w3Row, SNES_NUM_BUTTONS] using hb⟩)]
                else
                  [SinkCall.kbRelease (w3Row.get ⟨b, by simpa [w3Row, SNES_NUM_BUTTONS] using hb⟩)]))) :=
  ⟨⟨by decide, by decide, by decide⟩,
   c3_dispatch_routing 0 2 w3M w3Row (by decide) (by decide) (by decide)⟩

/-- C10: with the native-gamepad slot active (mapIndex = configCount,
where configCount is exactly the number of rows of the codes table, so
the table has no row at that index), setButton takes the gamepad branch
before any table lookup: its result is defined, is a pure gamepad call,
and does not depend on the table at all, so the per-profile codes table
is never indexed at the native-gamepad index. -/
theorem c10_native_slot_no_table_access (cc : Nat) (m : List (List Nat))
    (btn : Nat) (st : Bool) (hlen : m.length = cc) :
    m[cc]? = none ∧
    setButtonCallsO cc cc m btn st = some [SinkCall.gp btn st] ∧
    (∀ m2 : List (List Nat), setButtonCallsO cc cc m2 btn st = some [SinkCall.gp btn st]) ∧
    (∀ inputs : Nat, dispatchCallsO cc cc m inputs =
       some ((List.range SNES_NUM_BUTTONS).map fun i => SinkCall.gp i (bitOf inputs i))) := by
  refine ⟨?_, setButtonCallsO_native cc m btn st,
    fun m2 => setButtonCallsO_native cc m2 btn st,
    fun inputs => dispatchLoop_native cc m inputs (List.range SNES_NUM_BUTTONS)⟩
  exact List.getElem?_eq_none (by omega)

/-- Witness for c10_native_slot_no_table_access on the one-row table w3M
at its native slot index 1. -/
theorem c10_native_slot_no_table_access_witness :
    (w3M.length = 1) ∧
    (w3M[1]? = none ∧
     setButtonCallsO 1 1 w3M 4 true = some [SinkCall.gp 4 true] ∧
     (∀ m2 : List (List Nat), setButtonCallsO 1 1 m2 4 true = some [SinkCall.gp 4 true]) ∧
     (∀ inputs : Nat, dispatchCallsO 1 1 w3M inputs =
        some ((List.range SNES_NUM_BUTTONS).map fun i => SinkCall.gp i (bitOf inputs i)))) :=
  ⟨by decide, c10_native_slot_no_table_access 1 w3M 4 true (by decide)⟩

/-- The selector transition keeps mapIndex inside the table whenever
configCount fits in 16 bits. -/
theorem selectStep_lt (cc i : Nat) (u d : Bool) (hcc : cc < 65536) (hi : i < cc + 1) :
    selectStep cc i u d < cc + 1 := by
  unfold selectStep
  rcases u with _ | _ <;> rcases d with _ | _ <;>
    simp only [Bool.false_eq_true, if_false, if_true, if_pos rfl] <;>
    first
    | (split_ifs <;> omega)
    | omega

/-- loadMappings always yields a configCount below 65536 (it is a 16-bit
unsigned value). -/
theorem loadMappings_configCount_lt (cfg nm : List Nat) :
    (loadMappings cfg nm).configCount < 65536 := by
  cases cfg with
  | nil =>
    show (((-1 : Int) - 48) % 65536).toNat < 65536
    decide
  | cons b rest =>
    show ((((b : Nat) : Int) - 48) % 65536).toNat < 65536
    have h1 : 0 ≤ ((b : Int) - 48) % 65536 :=
      Int.emod_nonneg _ (by norm_num)
    have h2 : ((b : Int) - 48) % 65536 < 65536 :=
      Int.emod_lt_of_pos _ (by norm_num)
    omega

/-- Running any number of loop iterations preserves the mapIndex bound
and never writes the tables. -/
theorem run_preserves (tr : List (Nat × Bool × Bool)) :
    ∀ s : SysState, s.configCount < 65536 → s.mapIndex < s.configCount + 1 →
      (run s tr).mapIndex < s.configCount + 1 ∧
      (run s tr).configCount = s.configCount ∧
      (run s tr).mappings = s.mappings ∧
      (run s tr).names = s.names := by
  induction tr with
  | nil =>
    intro s hcc hi
    exact ⟨hi, rfl, rfl, rfl⟩
  | cons head tail ih =>
    intro s hcc hi
    obtain ⟨inputs, u, d⟩ := head
    have hstep : selectStep s.configCount s.mapIndex u d < s.configCount + 1 :=
      selectStep_lt s.configCount s.mapIndex u d hcc hi
    exact ih (stateStep s inputs u d).1 hcc hstep

/-- C7: after load, mapIndex starts at 0 and stays inside
[0, tableSize) across every sequence of loop iterations, its only
mutations coming through the selector transition baked into stateStep,
while the mapping and name tables built by loadMappings are never
modified again. -/
theorem c7_active_index_invariant (cfg nm : List Nat) (tr : List (Nat × Bool × Bool)) :
    (initialState cfg nm).mapIndex = 0 ∧
    (run (initialState cfg nm) tr).mapIndex < tableSize (loadMappings cfg nm) ∧
    (run (initialState cfg nm) tr).configCount = (loadMappings cfg nm).configCount ∧
    (run (initialState cfg nm) tr).mappings = (loadMappings cfg nm).mappings ∧
    (run (initialState cfg nm) tr).names = (loadMappings cfg nm).names := by
  have hcc : (initialState cfg nm).configCount < 65536 :=
    loadMappings_configCount_lt cfg nm
  have hi : (initialState cfg nm).mapIndex < (initialState cfg nm).configCount + 1 := by
    show 0 < (initialState cfg nm).configCount + 1
    omega
  obtain ⟨h1, h2, h3, h4⟩ := run_preserves tr (initialState cfg nm) hcc hi
  exact ⟨rfl, h1, h2, h3, h4⟩

/-- Every reading the busy-wait consumes before it lets the next poll
happen shows at least one select button still held, and the wait ends
exactly at the first reading where both are released. -/
theorem waitRelease_spec (l l2 : List (Bool × Bool)) (h : waitRelease l = some l2) :
    ∃ pre, l = pre ++ (false, false) :: l2 ∧
      ∀ q ∈ pre, q.1 = true ∨ q.2 = true := by
  induction l generalizing l2 with
  | nil => cases h
  | cons p t ih =>
    obtain ⟨u, d⟩ := p
    by_cases hud : u || d
    · rw [waitRelease, if_pos hud] at h
      obtain ⟨pre, hpre, hheld⟩ := ih l2 h
      refine ⟨(u, d) :: pre, by rw [hpre]; rfl, ?_⟩
      intro q hq
      rcases List.mem_cons.mp hq with h1 | h1
      · rw [h1]
        rcases u with _ | _ <;> rcases d with _ | _ <;> simp_all
      · exact hheld q h1
    · rw [waitRelease, if_neg hud] at h
      have hu : u = false := by rcases u with _ | _ <;> simp_all
      have hd : d = false := by rcases d with _ | _ <;> simp_all
      refine ⟨[], ?_, ?_⟩
      · rw [hu, hd]
        injection h with h2
        rw [h2]
        rfl
      · intro q hq
        cases hq

/-- C9: whenever a loop iteration completes (including one whose poll
reading triggered advance or retreat), every reading consumed between
its poll and the readings handed to the next iteration showed a select
button still held, and a reading with both buttons released occurred
before the next poll — so a single press, however long it is held,
can fire at most one selector transition. -/
theorem c9_debounce_blocks (s : SysState) (inputs : Nat) (u d : Bool)
    (rest : List (Bool × Bool)) (s2 : SysState) (rest2 : List (Bool × Bool))
    (calls : Option (List SinkCall))
    (h : loopIter s inputs ((u, d) :: rest) = some (s2, rest2, calls)) :
    ∃ pre, rest = pre ++ (false, false) :: rest2 ∧
      ∀ q ∈ pre, q.1 = true ∨ q.2 = true := by
  have h2 : (match waitRelease rest with
      | none => none
      | some r2 => some ((stateStep s inputs u d).1, r2, (stateStep s inputs u d).2)) =
      some (s2, rest2, calls) := h
  rcases hw : waitRelease rest with _ | r2
  · rw [hw] at h2
    simp at h2
  · rw [hw] at h2
    simp only [Option.some.injEq, Prod.mk.injEq] at h2
    obtain ⟨-, hr, -⟩ := h2
    rw [← hr]
    exact waitRelease_spec rest r2 hw

/-- Witness for c9_debounce_blocks: the up button is pressed at the poll,
stays held for one more reading, and is then released; the next
iteration starts only after that release. -/
theorem c9_debounce_blocks_witness :
    loopIter s9 0 [(true, false), (true, false), (false, false)] =
      some ((stateStep s9 0 true false).1, [], (stateStep s9 0 true false).2) ∧
    ∃ pre, [(true, false), (false, false)] = pre ++ (false, false) :: ([] : List (Bool × Bool)) ∧
      ∀ q ∈ pre, q.1 = true ∨ q.2 = true :=
  ⟨rfl,
   c9_debounce_blocks s9 0 true false [(true, false), (false, false)]
     (stateStep s9 0 true false).1 [] (stateStep s9 0 true false).2 rfl⟩

end SnesUniversal
